import Mathlib

/-!
Verification of the HT16K33 LED display driver (`time_counter_on_display.py`).

The Python classes `HT16K33`, `HT16K33Segment` (7-segment) and
`HT16K33Segment14` (14-segment) are shallowly embedded below.  The display
buffer (a `bytearray(16)`) is a `List Nat`; Python integer arguments that may
be negative are `Int`; Python strings are `List Char`; a Python method that can
raise is an `Except` whose error value records the exception class together
with the buffer contents at the moment of the raise (in-place mutations that
happened before the raise are visible there, exactly as in Python).
-/

namespace HT16K33

/-- The Python exception classes that the embedded methods can raise. -/
inductive PyErr where
  | assertionError
  | indexError
  | typeError
deriving DecidableEq, Repr

/-- The display buffer, a `bytearray(16)` in the source. -/
abbrev Buf := List Nat

/-- Result of a buffer-mutating method: success carries the updated buffer, an
exception carries the exception class and the buffer as left at raise time. -/
abbrev PyResult := Except (PyErr × Buf) Buf

/-- The exception class of a failed call, `none` on success. -/
def errKind : PyResult → Option PyErr
  | .error (e, _) => some e
  | .ok _ => none

/-! Constants of class `HT16K33` (source lines 18-24). -/

def HT16K33_GENERIC_DISPLAY_ON : Nat := 0x81
def HT16K33_GENERIC_DISPLAY_OFF : Nat := 0x80
def HT16K33_GENERIC_SYSTEM_ON : Nat := 0x21
def HT16K33_GENERIC_SYSTEM_OFF : Nat := 0x20
def HT16K33_GENERIC_CMD_BRIGHTNESS : Nat := 0xE0
def HT16K33_GENERIC_CMD_BLINK : Nat := 0x81

/-- `_write_cmd(byte)` sends `bytes([byte])`: a single-byte payload. -/
def writeCmd (b : Nat) : List Nat := [b]

/-- The bus payloads written by `power_on()` (source lines 94-99), in order. -/
def powerOnWrites : List (List Nat) :=
  [writeCmd HT16K33_GENERIC_SYSTEM_ON, writeCmd HT16K33_GENERIC_DISPLAY_ON]

/-- The bus payloads written during `__init__` (source lines 35-39): after the
address assertion the constructor performs exactly one `power_on()` call and
nothing else writes to the bus before it returns. -/
def initWrites : List (List Nat) := powerOnWrites

/-- A Python number as passed to `set_blink_rate`: an `int` or a `float`
(whose values here are all rational).  Python's `==` compares across the two
types by numeric value, but the bitwise operators `&` and `<<` are defined
only on `int`. -/
inductive PyNum where
  | int (n : Int)
  | float (x : ℚ)
deriving DecidableEq, Repr

/-- The numeric value of a `PyNum`, used by Python's `==` and hence by `in`. -/
def PyNum.toQ : PyNum → ℚ
  | .int n => (n : ℚ)
  | .float x => x

/-- `set_blink_rate(rate)` (source lines 43-54).  The assert admits the tuple
`(0, 0.5, 1, 2)` by numeric equality; afterwards `rate & 0x03` (and
`rate << 1`) are evaluated, which on any `float` — in particular the permitted
member `0.5` — raise `TypeError` before any bus write.  Returns the
transmitted single-byte command payload on success. -/
def set_blink_rate (rate : PyNum) : Except PyErr (List Nat) :=
  if rate.toQ = 0 ∨ rate.toQ = 1/2 ∨ rate.toQ = 1 ∨ rate.toQ = 2 then
    match rate with
    | .int n => .ok (writeCmd (HT16K33_GENERIC_CMD_BLINK ||| (n.toNat <<< 1)))
    | .float _ => .error .typeError
  else .error .assertionError

/-- Python `str.lower()` restricted to the ASCII range, which is all the driver
ever distinguishes: `'A'..'Z'` map down by 32, everything else is unchanged. -/
def pyLower (c : Char) : Char :=
  if 'A' ≤ c ∧ c ≤ 'Z' then Char.ofNat (c.toNat + 32) else c

/-- Python `ord(s)`: the code point of a one-character string, `TypeError`
on a string of any other length. -/
def pyOrd : List Char → Except PyErr Nat
  | [c] => .ok c.toNat
  | _ => .error .typeError

/-- Does `needle` occur at the head of `hay`? (helper for Python's `in`). -/
def headMatch : List Char → List Char → Bool
  | [], _ => true
  | _ :: _, [] => false
  | a :: as, b :: bs => a == b && headMatch as bs

/-- Python's substring test `needle in hay` on strings. -/
def subOf (needle : List Char) : List Char → Bool
  | [] => needle.isEmpty
  | c :: cs => headMatch needle (c :: cs) || subOf needle cs

end HT16K33

/-- Decidable equality for `Except` results, so that concrete runs can be
checked by `decide`. -/
instance exceptDecEq {α β : Type} [DecidableEq α] [DecidableEq β] : DecidableEq (Except α β) :=
  fun a b =>
    match a, b with
    | .ok x, .ok y => if h : x = y then .isTrue (by rw [h]) else .isFalse (by simp [h])
    | .error x, .error y => if h : x = y then .isTrue (by rw [h]) else .isFalse (by simp [h])
    | .ok _, .error _ => .isFalse (by simp)
    | .error _, .ok _ => .isFalse (by simp)

namespace HT16K33Segment

open HT16K33

/-! Class `HT16K33Segment`: the 7-segment, 4-digit driver. -/

def HT16K33_SEGMENT_COLON_ROW : Nat := 0x04
def HT16K33_SEGMENT_MINUS_CHAR : Nat := 0x10
def HT16K33_SEGMENT_DEGREE_CHAR : Nat := 0x11
def HT16K33_SEGMENT_SPACE_CHAR : Nat := 0x12

/-- The positions of the segments within the buffer (source line 148). -/
def POS : List Nat := [0, 2, 6, 8]

/-- 7-segment character table: 0-9, a-f, minus, degree, space (source line 152). -/
def CHARSET : List Nat :=
  [0x3F, 0x06, 0x5B, 0x4F, 0x66, 0x6D, 0x7D, 0x07, 0x7F, 0x6F,
   0x5F, 0x7C, 0x58, 0x5E, 0x7B, 0x71, 0x40, 0x63, 0x00]

/-- `set_colon(is_set)` (source lines 173-187). -/
def set_colon (is_set : Bool) (buf : Buf) : Buf :=
  buf.set HT16K33_SEGMENT_COLON_ROW (if is_set then 0x02 else 0x00)

/-- `set_glyph(glyph, digit, has_dot)` (source lines 189-223). -/
def set_glyph (glyph digit : Int) (has_dot : Bool) (buf : Buf) : PyResult :=
  if 0 ≤ digit ∧ digit < 4 then
    if 0 ≤ glyph ∧ glyph < 0x80 then
      let p := POS.getD digit.toNat 0
      let b1 := buf.set p glyph.toNat
      .ok (if has_dot then b1.set p (b1.getD p 0 ||| 0x80) else b1)
    else .error (.assertionError, buf)
  else .error (.assertionError, buf)

/-- `set_character(char, digit, has_dot)` (source lines 246-286).  The input
string is lowercased, resolved to a charset index (`char_val`, default `0xFF`
rejected by the assert), and `CHARSET[char_val]` is written to
`buffer[POS[digit]]`, OR-ing in `0x80` when `has_dot` is true.  Python's
`char in 'abcdef'` is a substring test, so a multi-character input can pass it
and then crash in `ord(char)` with a `TypeError`. -/
def set_character (ch : List Char) (digit : Int) (has_dot : Bool) (buf : Buf) : PyResult :=
  if 0 ≤ digit ∧ digit < 4 then
    let c := ch.map pyLower
    let cv : Except PyErr Nat :=
      if c = ['d', 'e', 'g'] then .ok HT16K33_SEGMENT_DEGREE_CHAR
      else if c = ['-'] then .ok HT16K33_SEGMENT_MINUS_CHAR
      else if c = [' '] then .ok HT16K33_SEGMENT_SPACE_CHAR
      else if subOf c ['a', 'b', 'c', 'd', 'e', 'f'] then (pyOrd c).map (· - 87)
      else if subOf c ['0', '1', '2', '3', '4', '5', '6', '7', '8', '9'] then
        (pyOrd c).map (· - 48)
      else .ok 0xFF
    match cv with
    | .error e => .error (e, buf)
    | .ok v =>
      if v = 0xFF then .error (.assertionError, buf)
      else
        let p := POS.getD digit.toNat 0
        let b1 := buf.set p (CHARSET.getD v 0)
        .ok (if has_dot then b1.set p (b1.getD p 0 ||| 0x80) else b1)
  else .error (.assertionError, buf)

/-- Python `str(number)` for the asserted range `0 ≤ number < 10`: the single
decimal digit character. -/
def strOfDigit (n : Int) : List Char := [Char.ofNat (48 + n.toNat)]

/-- `set_number(number, digit, has_dot)` (source lines 225-244). -/
def set_number (number digit : Int) (has_dot : Bool) (buf : Buf) : PyResult :=
  if 0 ≤ digit ∧ digit < 4 then
    if 0 ≤ number ∧ number < 10 then
      set_character (strOfDigit number) digit has_dot buf
    else .error (.assertionError, buf)
  else .error (.assertionError, buf)

/-- The per-byte rotation of `draw()` (source lines 307-311): `b = (a & 0x07)
<< 3; c = (a & 0x38) >> 3; a &= 0xC0; a | b | c`. -/
def digitRotate (a : Nat) : Nat :=
  (a &&& 0xC0) ||| ((a &&& 0x07) <<< 3) ||| ((a &&& 0x38) >>> 3)

/-- The per-digit rotation loop of `draw()` (source lines 306-311). -/
def rotatePass (buf : Buf) : Buf :=
  POS.foldl (fun b p => b.set p (digitRotate (b.getD p 0))) buf

/-- `draw()` (source lines 288-312): the stored buffer after the call.  While
the rotation flag is set the transform is applied in place: first the byte
swaps `POS[0] ↔ POS[3]` and `POS[1] ↔ POS[2]` (each via a temporary), then the
per-digit bit rotation; `_render` then transmits the mutated buffer. -/
def draw (is_rotated : Bool) (buf : Buf) : Buf :=
  if is_rotated then
    let b1 := (buf.set (POS.getD 0 0) (buf.getD (POS.getD 3 0) 0)).set
      (POS.getD 3 0) (buf.getD (POS.getD 0 0) 0)
    let b2 := (b1.set (POS.getD 1 0) (b1.getD (POS.getD 2 0) 0)).set
      (POS.getD 2 0) (b1.getD (POS.getD 1 0) 0)
    rotatePass b2
  else buf

end HT16K33Segment

namespace HT16K33Segment14

open HT16K33

/-! Class `HT16K33Segment14`: the 14-segment, 4-digit alphanumeric driver. -/

def HT16K33_SEG14_DP_VALUE : Nat := 0x4000
def HT16K33_SEG14_BLANK_CHAR : Nat := 62
def HT16K33_SEG14_DQUOTE_CHAR : Nat := 64
def HT16K33_SEG14_QUESTN_CHAR : Nat := 65
def HT16K33_SEG14_DOLLAR_CHAR : Nat := 66
def HT16K33_SEG14_PRCENT_CHAR : Nat := 67
def HT16K33_SEG14_DEGREE_CHAR : Nat := 68
def HT16K33_SEG14_STAR_CHAR : Nat := 72
def HT16K33_SEG14_PLUS_CHAR : Nat := 73
def HT16K33_SEG14_MINUS_CHAR : Nat := 74
def HT16K33_SEG14_DIVSN_CHAR : Nat := 75
def HT16K33_SEG14_CHAR_COUNT : Nat := 76

def VK16K33_SEG14_COLON_BYTE : Nat := 1
def VK16K33_SEG14_DECIMAL_BYTE : Nat := 3

/-- 14-segment character table (source line 348): 76 entries of (MSB, LSB)
byte pairs for 0-9, A-Z, a-z, space and symbols. -/
def CHARSET : List Nat :=
  [0x24, 0x3F, 0x00, 0x06, 0x00, 0xDB, 0x00, 0x8F, 0x00, 0xE6, 0x00, 0xED, 0x00, 0xFD, 0x00, 0x07,
   0x00, 0xFF, 0x00, 0xEF, 0x00, 0xF7, 0x12, 0x8F, 0x00, 0x39, 0x12, 0x0F, 0x00, 0x79, 0x00, 0x71,
   0x00, 0xBD, 0x00, 0xF6, 0x12, 0x09, 0x00, 0x1E, 0x0C, 0x70, 0x00, 0x38, 0x05, 0x36, 0x09, 0x36,
   0x00, 0x3F, 0x00, 0xF3, 0x08, 0x3F, 0x08, 0xF3, 0x00, 0xED, 0x12, 0x01, 0x00, 0x3E, 0x24, 0x30,
   0x28, 0x36, 0x2D, 0x00, 0x15, 0x00, 0x24, 0x09, 0x10, 0x58, 0x08, 0x78, 0x00, 0xD8, 0x20, 0x8E,
   0x20, 0x58, 0x24, 0x80, 0x04, 0x8E, 0x10, 0x70, 0x10, 0x00, 0x08, 0x06, 0x1E, 0x00, 0x20, 0x30,
   0x10, 0xD4, 0x10, 0x50, 0x00, 0xDC, 0x01, 0x70, 0x04, 0x86, 0x00, 0x50, 0x08, 0x88, 0x00, 0x78,
   0x00, 0x1C, 0x08, 0x04, 0x28, 0x14, 0x2D, 0x00, 0x25, 0x00, 0x20, 0x48, 0x00, 0x00, 0x00, 0x06,
   0x02, 0x20, 0x10, 0x83, 0x12, 0xED, 0x24, 0x24, 0x00, 0xE3, 0x04, 0x00, 0x09, 0x00, 0x20, 0x00,
   0x3F, 0xC0, 0x12, 0xC0, 0x00, 0xC0, 0x24, 0x00]

/-- One iteration step of the Convention-A serialization loop in `_set_digit`
(source lines 549-559), entered at loop counter `i` with buffer cursor `a` and
marker multiplier `d`; `fuel` counts the remaining iterations (`16 - i`).  The
body is `if value & (1 << i): buffer[a] |= d << digit` (an out-of-range `a`
raises `IndexError`), then `a += 2`, and after iteration `i == 6` the cursor is
reset (`a = 0`) and the marker moves to the high nibble (`d = 16`). -/
def setDigitAGo (value digit : Nat) : Nat → Nat → Nat → Nat → Buf → PyResult
  | 0, _, _, _, buf => .ok buf
  | fuel + 1, i, a, d, buf =>
    if value.testBit i then
      if a < buf.length then
        let b2 := buf.set a (buf.getD a 0 ||| (d <<< digit))
        if i = 6 then setDigitAGo value digit fuel (i + 1) 0 16 b2
        else setDigitAGo value digit fuel (i + 1) (a + 2) d b2
      else .error (.indexError, buf)
    else
      if i = 6 then setDigitAGo value digit fuel (i + 1) 0 16 buf
      else setDigitAGo value digit fuel (i + 1) (a + 2) d buf

/-- The Convention-A (`else`, VK16K33) branch of `_set_digit`: the 16-round
loop starting from `a = 0`, `d = 1`. -/
def setDigitA (value digit : Nat) (buf : Buf) : PyResult :=
  setDigitAGo value digit 16 0 0 1 buf

/-- The MSB transform of the Convention-B (HT16K33) branch of `_set_digit`
(source lines 541-546): take the high byte and swap bits 3 and 5
(`b11 = msb & 0x08; b13 = msb & 0x20; msb &= 0xD7; msb |= b11 << 2;
msb |= b13 >> 2`). -/
def msbB (value : Nat) : Nat :=
  let msb := (value >>> 8) &&& 0xFF
  let b11 := msb &&& 0x08
  let b13 := msb &&& 0x20
  ((msb &&& 0xD7) ||| (b11 <<< 2)) ||| (b13 >>> 2)

/-- The Convention-B (HT16K33) branch of `_set_digit` (source lines 537-548):
store the transformed MSB at `buffer[(digit << 1) + 1]` and the LSB at
`buffer[digit << 1]`. -/
def setDigitB (value digit : Nat) (buf : Buf) : Buf :=
  (buf.set ((digit <<< 1) + 1) (msbB value)).set (digit <<< 1) (value &&& 0xFF)

/-- `_set_digit(value, digit, has_dot)` (source lines 535-560).  Only the
HT16K33 branch reads `has_dot` (OR-ing in `HT16K33_SEG14_DP_VALUE` first);
the VK16K33 branch runs the bit-plane loop on the raw value. -/
def set_digit (is_ht16k33 : Bool) (value digit : Nat) (has_dot : Bool) (buf : Buf) : PyResult :=
  if is_ht16k33 then
    let v := if has_dot then value ||| HT16K33_SEG14_DP_VALUE else value
    .ok (setDigitB v digit buf)
  else setDigitA value digit buf

/-- `set_glyph(glyph, digit, has_dot)` (source lines 361-397). -/
def set_glyph (is_ht16k33 : Bool) (glyph digit : Int) (has_dot : Bool) (buf : Buf) : PyResult :=
  if 0 ≤ digit ∧ digit < 4 then
    if 0 ≤ glyph ∧ glyph < 0xFFFF then
      set_digit is_ht16k33 glyph.toNat digit.toNat has_dot buf
    else .error (.assertionError, buf)
  else .error (.assertionError, buf)

/-- `set_character(char, digit, has_dot)` (source lines 421-469).  The input is
not lowercased here; after the literal symbol comparisons, Python's substring
`in` tests select the digit/uppercase/lowercase ASCII ranges.  On a failed
resolution the assert's message itself evaluates `ord(char)`, so a
multi-character invalid input raises `TypeError` instead of `AssertionError`;
either way the buffer is untouched.  On success the two charset bytes are
combined as `(CHARSET[v << 1] << 8) | CHARSET[(v << 1) + 1]` and handed to
`_set_digit`. -/
def set_character (is_ht16k33 : Bool) (ch : List Char) (digit : Int) (has_dot : Bool)
    (buf : Buf) : PyResult :=
  if 0 ≤ digit ∧ digit < 4 then
    let cv : Except PyErr Nat :=
      if ch = ['-'] then .ok HT16K33_SEG14_MINUS_CHAR
      else if ch = ['*'] then .ok HT16K33_SEG14_STAR_CHAR
      else if ch = ['+'] then .ok HT16K33_SEG14_PLUS_CHAR
      else if ch = [' '] then .ok HT16K33_SEG14_BLANK_CHAR
      else if ch = ['/'] then .ok HT16K33_SEG14_DIVSN_CHAR
      else if ch = ['$'] then .ok HT16K33_SEG14_DOLLAR_CHAR
      else if ch = [':'] then .ok HT16K33_SEG14_DQUOTE_CHAR
      else if subOf ch ['0', '1', '2', '3', '4', '5', '6', '7', '8', '9'] then
        (pyOrd ch).map (· - 48)
      else if subOf ch ['A', 'B', 'C', 'D', 'E', 'F', 'G', 'H', 'I', 'J', 'K', 'L', 'M',
          'N', 'O', 'P', 'Q', 'R', 'S', 'T', 'U', 'V', 'W', 'X', 'Y', 'Z'] then
        (pyOrd ch).map (· - 55)
      else if subOf ch ['a', 'b', 'c', 'd', 'e', 'f', 'g', 'h', 'i', 'j', 'k', 'l', 'm',
          'n', 'o', 'p', 'q', 'r', 's', 't', 'u', 'v', 'w', 'x', 'y', 'z'] then
        (pyOrd ch).map (· - 61)
      else .ok 0xFFFF
    match cv with
    | .error e => .error (e, buf)
    | .ok v =>
      if v = 0xFFFF then
        match pyOrd ch with
        | .error e => .error (e, buf)
        | .ok _ => .error (.assertionError, buf)
      else
        set_digit is_ht16k33 ((CHARSET.getD (v <<< 1) 0) <<< 8 ||| CHARSET.getD ((v <<< 1) + 1) 0)
          digit.toNat has_dot buf
  else .error (.assertionError, buf)

/-- `set_number(number, digit, has_dot)` (source lines 399-419). -/
def set_number (is_ht16k33 : Bool) (number digit : Int) (has_dot : Bool) (buf : Buf) : PyResult :=
  if 0 ≤ digit ∧ digit < 4 then
    if 0 ≤ number ∧ number < 10 then
      set_character is_ht16k33 (HT16K33Segment.strOfDigit number) digit has_dot buf
    else .error (.assertionError, buf)
  else .error (.assertionError, buf)

/-- `set_code(code, digit, has_dot)` (source lines 471-494). -/
def set_code (is_ht16k33 : Bool) (code digit : Int) (has_dot : Bool) (buf : Buf) : PyResult :=
  if 0 ≤ digit ∧ digit < 4 then
    if 0 ≤ code ∧ code < HT16K33_SEG14_CHAR_COUNT then
      set_digit is_ht16k33
        ((CHARSET.getD (code.toNat <<< 1) 0) <<< 8 ||| CHARSET.getD ((code.toNat <<< 1) + 1) 0)
        digit.toNat has_dot buf
    else .error (.assertionError, buf)
  else .error (.assertionError, buf)

/-- `set_colon(is_on)` (source lines 496-512): a no-op on the HT16K33,
otherwise set (`|= 0x01`) or clear (`&= 0xFE`) bit 0 of buffer byte 1. -/
def set_colon (is_ht16k33 : Bool) (is_on : Bool) (buf : Buf) : Buf :=
  if is_ht16k33 then buf
  else if is_on then
    buf.set VK16K33_SEG14_COLON_BYTE (buf.getD VK16K33_SEG14_COLON_BYTE 0 ||| 0x01)
  else
    buf.set VK16K33_SEG14_COLON_BYTE (buf.getD VK16K33_SEG14_COLON_BYTE 0 &&& 0xFE)

/-- `set_decimal(is_on)` (source lines 515-531): a no-op on the HT16K33,
otherwise `|= 0x01` to set but `&= 0x7F` to clear on buffer byte 3. -/
def set_decimal (is_ht16k33 : Bool) (is_on : Bool) (buf : Buf) : Buf :=
  if is_ht16k33 then buf
  else if is_on then
    buf.set VK16K33_SEG14_DECIMAL_BYTE (buf.getD VK16K33_SEG14_DECIMAL_BYTE 0 ||| 0x01)
  else
    buf.set VK16K33_SEG14_DECIMAL_BYTE (buf.getD VK16K33_SEG14_DECIMAL_BYTE 0 &&& 0x7F)


/-- OR the marker `m` into buffer byte `a` (one conditional loop write,
normalized: an unset bit contributes the marker `0`). -/
def condSet (buf : Buf) (a m : Nat) : Buf :=
  buf.set a (buf.getD a 0 ||| m)

/-- The marker that loop iteration `i` ORs into its buffer byte: `mult << dg`
when bit `i` of the glyph is set (`mult` is `1` in the low bank, `16` in the
high bank), `0` otherwise. -/
def mA (v dg i mult : Nat) : Nat := if v.testBit i then mult <<< dg else 0

/-- The cumulative effect of the first fifteen iterations of the Convention-A
loop, as unconditional marker ORs along the write schedule: bit `i ≤ 6` lands
at byte `2*i` with low-bank marker, bit `7 ≤ i ≤ 14` at byte `2*(i-7)` with
high-bank marker. -/
def writesA (v dg : Nat) (buf : Buf) : Buf :=
  condSet (condSet (condSet (condSet (condSet (condSet (condSet (condSet (condSet (condSet
    (condSet (condSet (condSet (condSet (condSet buf
    0 (mA v dg 0 1)) 2 (mA v dg 1 1)) 4 (mA v dg 2 1)) 6 (mA v dg 3 1)) 8 (mA v dg 4 1))
    10 (mA v dg 5 1)) 12 (mA v dg 6 1)) 0 (mA v dg 7 16)) 2 (mA v dg 8 16)) 4 (mA v dg 9 16))
    6 (mA v dg 10 16)) 8 (mA v dg 11 16)) 10 (mA v dg 12 16)) 12 (mA v dg 13 16))
    14 (mA v dg 14 16)

/-- The buffer mutation that the specified Convention-A index sequence
prescribes, in closed form.  Walking the sequence (`a = 0, d_mult = 1`; for
`i` in `0..16`: if bit `i` is set, `buffer[a] |= d_mult << digit`; `a += 2`;
after `i == 6` reset `a = 0` and `d_mult = 16`), bit `j ≤ 6` of the glyph ORs
`1 << digit` into byte `2*j`, bit `j + 7` (`j ≤ 7`) ORs `16 << digit` into byte
`2*j`; every odd byte and byte 15 is untouched, which makes "no buffer byte
outside this sequence is modified" part of the statement. -/
def prescribedA (v dg : Nat) : Buf → Buf
  | [b0, b1, b2, b3, b4, b5, b6, b7, b8, b9, b10, b11, b12, b13, b14, b15] =>
    [b0 ||| mA v dg 0 1 ||| mA v dg 7 16, b1,
     b2 ||| mA v dg 1 1 ||| mA v dg 8 16, b3,
     b4 ||| mA v dg 2 1 ||| mA v dg 9 16, b5,
     b6 ||| mA v dg 3 1 ||| mA v dg 10 16, b7,
     b8 ||| mA v dg 4 1 ||| mA v dg 11 16, b9,
     b10 ||| mA v dg 5 1 ||| mA v dg 12 16, b11,
     b12 ||| mA v dg 6 1 ||| mA v dg 13 16, b13,
     b14 ||| mA v dg 14 16, b15]
  | l => l

end HT16K33Segment14


namespace HT16K33Segment14

open HT16K33

/-! Proof infrastructure for the Convention-A serialization loop. -/


theorem condSet_length (buf : Buf) (a m : Nat) : (condSet buf a m).length = buf.length := by
  simp [condSet]

theorem set_getD_self (buf : Buf) (a : Nat) (h : a < buf.length) :
    buf.set a (buf[a]?.getD 0) = buf := by
  induction buf generalizing a with
  | nil => simp at h
  | cons x xs ih =>
    cases a with
    | zero => simp
    | succ n => simp [ih n (by simpa using h)]

theorem go_step_ne6 (v dg fuel i a d : Nat) (buf : Buf) (ha : a < buf.length) (hi : i ≠ 6) :
    setDigitAGo v dg (fuel + 1) i a d buf =
      setDigitAGo v dg fuel (i + 1) (a + 2) d
        (condSet buf a (if v.testBit i then d <<< dg else 0)) := by
  by_cases hb : v.testBit i
  · simp [setDigitAGo, hb, ha, hi, condSet]
  · simp [setDigitAGo, hb, hi, condSet, set_getD_self buf a ha]

theorem go_step_6 (v dg fuel a d : Nat) (buf : Buf) (ha : a < buf.length) :
    setDigitAGo v dg (fuel + 1) 6 a d buf =
      setDigitAGo v dg fuel 7 0 16
        (condSet buf a (if v.testBit 6 then d <<< dg else 0)) := by
  by_cases hb : v.testBit 6
  · simp [setDigitAGo, hb, ha, condSet]
  · simp [setDigitAGo, hb, condSet, set_getD_self buf a ha]

theorem go_last (v dg a d : Nat) (buf : Buf) (ha : buf.length ≤ a) :
    setDigitAGo v dg 1 15 a d buf =
      if v.testBit 15 then .error (.indexError, buf) else .ok buf := by
  by_cases hb : v.testBit 15
  · simp [setDigitAGo, hb, Nat.not_lt.mpr ha]
  · simp [setDigitAGo, hb]



/-- Running the Convention-A loop on a 16-byte buffer performs the scheduled
writes for bits 0-14 and then, exactly when bit 15 of the glyph is set,
attempts the out-of-range write `buffer[16]` and raises `IndexError` with the
partially updated buffer. -/
theorem setDigitA_run (v dg : Nat) (buf : Buf) (hlen : buf.length = 16) :
    setDigitA v dg buf =
      if v.testBit 15 then .error (.indexError, writesA v dg buf)
      else .ok (writesA v dg buf) := by
  unfold setDigitA
  rw [go_step_ne6 v dg 15 0 0 1 buf (by omega) (by decide)]
  rw [go_step_ne6 v dg 14 1 2 1 _ (by simp only [condSet_length]; omega) (by decide)]
  rw [go_step_ne6 v dg 13 2 4 1 _ (by simp only [condSet_length]; omega) (by decide)]
  rw [go_step_ne6 v dg 12 3 6 1 _ (by simp only [condSet_length]; omega) (by decide)]
  rw [go_step_ne6 v dg 11 4 8 1 _ (by simp only [condSet_length]; omega) (by decide)]
  rw [go_step_ne6 v dg 10 5 10 1 _ (by simp only [condSet_length]; omega) (by decide)]
  rw [go_step_6 v dg 9 12 1 _ (by simp only [condSet_length]; omega)]
  rw [go_step_ne6 v dg 8 7 0 16 _ (by simp only [condSet_length]; omega) (by decide)]
  rw [go_step_ne6 v dg 7 8 2 16 _ (by simp only [condSet_length]; omega) (by decide)]
  rw [go_step_ne6 v dg 6 9 4 16 _ (by simp only [condSet_length]; omega) (by decide)]
  rw [go_step_ne6 v dg 5 10 6 16 _ (by simp only [condSet_length]; omega) (by decide)]
  rw [go_step_ne6 v dg 4 11 8 16 _ (by simp only [condSet_length]; omega) (by decide)]
  rw [go_step_ne6 v dg 3 12 10 16 _ (by simp only [condSet_length]; omega) (by decide)]
  rw [go_step_ne6 v dg 2 13 12 16 _ (by simp only [condSet_length]; omega) (by decide)]
  rw [go_step_ne6 v dg 1 14 14 16 _ (by simp only [condSet_length]; omega) (by decide)]
  rw [go_last v dg 16 16 _ (by simp only [condSet_length]; omega)]
  simp only [writesA, mA]

end HT16K33Segment14

namespace HT16K33Segment14

open HT16K33


theorem writesA_eq_prescribedA (v dg b0 b1 b2 b3 b4 b5 b6 b7 b8 b9 b10 b11 b12 b13 b14 b15 : Nat) :
    writesA v dg [b0, b1, b2, b3, b4, b5, b6, b7, b8, b9, b10, b11, b12, b13, b14, b15] =
      prescribedA v dg [b0, b1, b2, b3, b4, b5, b6, b7, b8, b9, b10, b11, b12, b13, b14, b15] := by
  simp [writesA, condSet, prescribedA]

end HT16K33Segment14

/-! ## Claim theorems -/

namespace HT16K33Segment14

/-- In Convention-A mode `_set_digit` never reads `has_dot`: it runs the
bit-plane loop on the raw value. -/
theorem set_digit_false (v d : Nat) (dot : Bool) (buf : HT16K33.Buf) :
    set_digit false v d dot buf = setDigitA v d buf := by
  simp [set_digit]

end HT16K33Segment14

open HT16K33 in
/-- C7 counterexample: `power_on` does not write 0x20 then 0x80; its first
command byte is the system-on value 0x21 (`HT16K33_GENERIC_SYSTEM_ON`), not
0x20, and its second is 0x81, not 0x80. -/
theorem claim_C7_counterexample :
    ¬(powerOnWrites = [[0x20], [0x80]]) ∧ powerOnWrites.getD 0 [] = [0x21] := by
  decide

open HT16K33 in
/-- C7 (amended): `power_on`, invoked exactly once during construction before
the constructor returns, writes exactly two single-byte commands over the bus
in order: first the system-on command byte 0x21, then the display-on command
byte 0x81 (the datasheet pairing is display-on/off = 0x81/0x80 and
system-on/off = 0x21/0x20). -/
theorem claim_C7_amended :
    initWrites = [writeCmd HT16K33_GENERIC_SYSTEM_ON, writeCmd HT16K33_GENERIC_DISPLAY_ON] ∧
      initWrites = [[0x21], [0x81]] ∧
      initWrites.all (fun w => w.length == 1) = true := by
  decide

open HT16K33 in
/-- C9 (code evaluated at the failing input): the permitted blink rate `0.5`
passes the assert but raises `TypeError` in `rate & 0x03` before any bus
write; the permitted integer rates `0`, `1` and `2` transmit the single
command byte `0x81 | (rate << 1)`; every rate outside the permitted set fails
the assert (invalid-argument) before any bus write. -/
theorem claim_C9_blink_rate :
    set_blink_rate (.float (1/2)) = .error .typeError ∧
      set_blink_rate (.int 0) = .ok [0x81] ∧
      set_blink_rate (.int 1) = .ok [0x83] ∧
      set_blink_rate (.int 2) = .ok [0x85] ∧
      (∀ r : PyNum, ¬(r.toQ = 0 ∨ r.toQ = 1/2 ∨ r.toQ = 1 ∨ r.toQ = 2) →
        set_blink_rate r = .error .assertionError) := by
  refine ⟨?_, ?_, ?_, ?_, fun r h => ?_⟩
  · simp [set_blink_rate, PyNum.toQ]
  · simp only [set_blink_rate, PyNum.toQ, Int.cast_zero]
    simp [writeCmd, HT16K33_GENERIC_CMD_BLINK]
  · simp only [set_blink_rate, PyNum.toQ, Int.cast_one]
    simp [writeCmd, HT16K33_GENERIC_CMD_BLINK]
  · simp only [set_blink_rate, PyNum.toQ]
    norm_num
    simp [writeCmd, HT16K33_GENERIC_CMD_BLINK]
  · simp only [set_blink_rate]
    rw [if_neg h]

open HT16K33 HT16K33Segment14 in
/-- C10: in Convention-A mode (`is_ht16k33 = False`) the `has_dot` argument of
`set_glyph`, `set_number`, `set_character` and `set_code` has no effect: the
dot bit `0x4000` is OR-ed in only on the Convention-B branch of `_set_digit`,
so each operation returns the identical result (buffer and error state alike)
whether `has_dot` is true or false. -/
theorem claim_C10_conventionA_dot_ignored :
    (∀ (g d : Int) (dot : Bool) (buf : Buf),
        HT16K33Segment14.set_glyph false g d dot buf =
          HT16K33Segment14.set_glyph false g d false buf) ∧
      (∀ (n d : Int) (dot : Bool) (buf : Buf),
        HT16K33Segment14.set_number false n d dot buf =
          HT16K33Segment14.set_number false n d false buf) ∧
      (∀ (cs : List Char) (d : Int) (dot : Bool) (buf : Buf),
        HT16K33Segment14.set_character false cs d dot buf =
          HT16K33Segment14.set_character false cs d false buf) ∧
      (∀ (c d : Int) (dot : Bool) (buf : Buf),
        HT16K33Segment14.set_code false c d dot buf =
          HT16K33Segment14.set_code false c d false buf) := by
  refine ⟨fun g d dot buf => ?_, fun n d dot buf => ?_, fun cs d dot buf => ?_,
    fun c d dot buf => ?_⟩
  · simp only [HT16K33Segment14.set_glyph, set_digit_false]
  · simp only [HT16K33Segment14.set_number, HT16K33Segment14.set_character, set_digit_false]
  · simp only [HT16K33Segment14.set_character, set_digit_false]
  · simp only [HT16K33Segment14.set_code, set_digit_false]


open HT16K33 HT16K33Segment14 in
/-- C1: Convention-A digit writer follows the prescribed index sequence. -/
theorem claim_C1_conventionA_bitplane
    (b0 b1 b2 b3 b4 b5 b6 b7 b8 b9 b10 b11 b12 b13 b14 b15 v d : Nat)
    (hv : v < 0x8000) (hd : d < 4) :
    setDigitA v d [b0, b1, b2, b3, b4, b5, b6, b7, b8, b9, b10, b11, b12, b13, b14, b15] =
      .ok (prescribedA v d
        [b0, b1, b2, b3, b4, b5, b6, b7, b8, b9, b10, b11, b12, b13, b14, b15]) := by
  have h2 : v < 2 ^ 15 := by norm_num; omega
  have h15 : v.testBit 15 = false := Nat.testBit_lt_two_pow h2
  rw [setDigitA_run v d [b0, b1, b2, b3, b4, b5, b6, b7, b8, b9, b10, b11, b12, b13, b14, b15]
    (by simp), h15]
  simp [writesA_eq_prescribedA]

open HT16K33 HT16K33Segment14 in
theorem claim_C1_witness :
    (0x4321 < 0x8000 ∧ 2 < 4) ∧
      setDigitA 0x4321 2 [0, 0, 0, 0, 0, 0, 0, 0, 0, 0, 0, 0, 0, 0, 0, 0] =
        .ok (prescribedA 0x4321 2 [0, 0, 0, 0, 0, 0, 0, 0, 0, 0, 0, 0, 0, 0, 0, 0]) :=
  ⟨by decide,
    claim_C1_conventionA_bitplane 0 0 0 0 0 0 0 0 0 0 0 0 0 0 0 0 0x4321 2
      (by decide) (by decide)⟩

open HT16K33 HT16K33Segment14 in
/-- C6: glyphs with bit 15 set pass the asserts but crash the Convention-A
writer out of bounds, after partial writes. -/
theorem claim_C6_bit15_out_of_bounds
    (b0 b1 b2 b3 b4 b5 b6 b7 b8 b9 b10 b11 b12 b13 b14 b15 : Nat)
    (g d : Int) (dot : Bool)
    (hg0 : 0 ≤ g) (hg : g < 0xFFFF) (hbit : g.toNat.testBit 15 = true)
    (hd0 : 0 ≤ d) (hd : d < 4) :
    errKind (HT16K33Segment14.set_glyph false g d dot
        [b0, b1, b2, b3, b4, b5, b6, b7, b8, b9, b10, b11, b12, b13, b14, b15]) =
      some .indexError ∧
      HT16K33Segment14.set_glyph false 0x8001 0 false
          [0, 0, 0, 0, 0, 0, 0, 0, 0, 0, 0, 0, 0, 0, 0, 0] =
        .error (.indexError, [1, 0, 0, 0, 0, 0, 0, 0, 0, 0, 0, 0, 0, 0, 0, 0]) := by
  constructor
  · simp only [HT16K33Segment14.set_glyph]
    rw [if_pos ⟨hd0, hd⟩, if_pos ⟨hg0, hg⟩, set_digit_false,
      setDigitA_run g.toNat d.toNat
        [b0, b1, b2, b3, b4, b5, b6, b7, b8, b9, b10, b11, b12, b13, b14, b15] (by simp), hbit]
    rfl
  · decide

namespace HT16K33Segment14

theorem shiftLeft_one_eq (d : Nat) : d <<< 1 = 2 * d := by
  rw [Nat.shiftLeft_eq]
  ring

theorem and_255_eq_mod (x : Nat) : x &&& 0xFF = x % 256 := by
  have h := Nat.and_pow_two_sub_one_eq_mod x 8
  norm_num at h
  exact h

theorem testBit_255 (j : Nat) : Nat.testBit 255 j = decide (j < 8) := by
  rcases Nat.lt_or_ge j 8 with h | h
  · interval_cases j <;> decide
  · have h2 : (255 : Nat) < 2 ^ j :=
      lt_of_lt_of_le (by norm_num) (Nat.pow_le_pow_right (by norm_num) h)
    rw [Nat.testBit_lt_two_pow h2, eq_comm, decide_eq_false_iff_not]
    omega

theorem testBit_215 (j : Nat) : Nat.testBit 215 j = decide (j < 8 ∧ j ≠ 3 ∧ j ≠ 5) := by
  rcases Nat.lt_or_ge j 8 with h | h
  · interval_cases j <;> decide
  · have h2 : (215 : Nat) < 2 ^ j :=
      lt_of_lt_of_le (by norm_num) (Nat.pow_le_pow_right (by norm_num) h)
    rw [Nat.testBit_lt_two_pow h2, eq_comm, decide_eq_false_iff_not]
    omega

theorem testBit_8 (j : Nat) : Nat.testBit 8 j = decide (j = 3) := by
  have h := @Nat.testBit_two_pow 3 j
  norm_num at h
  simp [h, eq_comm]

theorem testBit_32 (j : Nat) : Nat.testBit 32 j = decide (j = 5) := by
  have h := @Nat.testBit_two_pow 5 j
  norm_num at h
  simp [h, eq_comm]

theorem msbB_testBit_3 (x : Nat) :
    (msbB x).testBit 3 = ((x >>> 8) &&& 0xFF).testBit 5 := by
  simp [msbB, testBit_255, testBit_215, testBit_8, testBit_32]

theorem msbB_testBit_5 (x : Nat) :
    (msbB x).testBit 5 = ((x >>> 8) &&& 0xFF).testBit 3 := by
  simp [msbB, testBit_255, testBit_215, testBit_8, testBit_32]

theorem msbB_testBit_other (x j : Nat) (hj : j < 8) (h3 : j ≠ 3) (h5 : j ≠ 5) :
    (msbB x).testBit j = ((x >>> 8) &&& 0xFF).testBit j := by
  interval_cases j <;>
    simp_all [msbB, testBit_255, testBit_215, testBit_8, testBit_32]

end HT16K33Segment14

namespace HT16K33Segment14

theorem testBit_254 (j : Nat) : Nat.testBit 254 j = decide (j < 8 ∧ j ≠ 0) := by
  rcases Nat.lt_or_ge j 8 with h | h
  · interval_cases j <;> decide
  · have h2 : (254 : Nat) < 2 ^ j :=
      lt_of_lt_of_le (by norm_num) (Nat.pow_le_pow_right (by norm_num) h)
    rw [Nat.testBit_lt_two_pow h2, eq_comm, decide_eq_false_iff_not]
    omega

theorem testBit_one (j : Nat) : Nat.testBit 1 j = decide (j = 0) := by
  have h := @Nat.testBit_two_pow 0 j
  norm_num at h
  simp [h, eq_comm]

end HT16K33Segment14

open HT16K33 HT16K33Segment14 in
/-- C8: `set_colon`/`set_decimal` are no-ops in HT16K33 mode; otherwise
`set_colon` sets or clears exactly bit 0 of buffer byte 1, and `set_decimal`
writes buffer byte 3 with mask 0x01 (OR) to set and mask 0x7F (AND) to
clear. -/
theorem claim_C8_colon_decimal
    (isOn : Bool) (b0 b1 b2 b3 b4 b5 b6 b7 b8 b9 b10 b11 b12 b13 b14 b15 : Nat)
    (hb1 : b1 < 256) :
    (set_colon true isOn [b0, b1, b2, b3, b4, b5, b6, b7, b8, b9, b10, b11, b12, b13, b14, b15] =
        [b0, b1, b2, b3, b4, b5, b6, b7, b8, b9, b10, b11, b12, b13, b14, b15]) ∧
      (set_decimal true isOn [b0, b1, b2, b3, b4, b5, b6, b7, b8, b9, b10, b11, b12, b13, b14, b15] =
        [b0, b1, b2, b3, b4, b5, b6, b7, b8, b9, b10, b11, b12, b13, b14, b15]) ∧
      ((set_colon false true [b0, b1, b2, b3, b4, b5, b6, b7, b8, b9, b10, b11, b12, b13, b14,
          b15]).getD 1 0).testBit 0 = true ∧
      (∀ j, j ≠ 0 →
        ((set_colon false true [b0, b1, b2, b3, b4, b5, b6, b7, b8, b9, b10, b11, b12, b13, b14,
            b15]).getD 1 0).testBit j = b1.testBit j) ∧
      ((set_colon false false [b0, b1, b2, b3, b4, b5, b6, b7, b8, b9, b10, b11, b12, b13, b14,
          b15]).getD 1 0).testBit 0 = false ∧
      (∀ j, j ≠ 0 →
        ((set_colon false false [b0, b1, b2, b3, b4, b5, b6, b7, b8, b9, b10, b11, b12, b13, b14,
            b15]).getD 1 0).testBit j = b1.testBit j) ∧
      (∀ i, i ≠ 1 →
        (set_colon false isOn [b0, b1, b2, b3, b4, b5, b6, b7, b8, b9, b10, b11, b12, b13, b14,
            b15]).getD i 0 =
          [b0, b1, b2, b3, b4, b5, b6, b7, b8, b9, b10, b11, b12, b13, b14, b15].getD i 0) ∧
      (set_decimal false true [b0, b1, b2, b3, b4, b5, b6, b7, b8, b9, b10, b11, b12, b13, b14,
          b15] =
        [b0, b1, b2, b3, b4, b5, b6, b7, b8, b9, b10, b11, b12, b13, b14, b15].set 3
          (b3 ||| 0x01)) ∧
      (set_decimal false false [b0, b1, b2, b3, b4, b5, b6, b7, b8, b9, b10, b11, b12, b13, b14,
          b15] =
        [b0, b1, b2, b3, b4, b5, b6, b7, b8, b9, b10, b11, b12, b13, b14, b15].set 3
          (b3 &&& 0x7F)) := by
  refine ⟨rfl, rfl, by simp [set_colon, VK16K33_SEG14_COLON_BYTE], ?_, ?_, ?_, ?_, rfl, rfl⟩
  · intro j hj
    simp [set_colon, VK16K33_SEG14_COLON_BYTE, testBit_one, hj]
  · simp [set_colon, VK16K33_SEG14_COLON_BYTE, testBit_254]
  · intro j hj
    rcases Nat.lt_or_ge j 8 with h8 | h8
    · simp [set_colon, VK16K33_SEG14_COLON_BYTE, testBit_254, hj, h8]
    · have h256 : (256 : Nat) ≤ 2 ^ j := by
        calc (256 : Nat) = 2 ^ 8 := by norm_num
          _ ≤ 2 ^ j := Nat.pow_le_pow_right (by norm_num) h8
      have h2 : b1 < 2 ^ j := lt_of_lt_of_le hb1 h256
      simp [set_colon, VK16K33_SEG14_COLON_BYTE, testBit_254, Nat.testBit_lt_two_pow h2]
  · intro i hi
    rcases isOn with _ | _ <;> rcases i with _ | _ | i <;>
      simp_all [set_colon, VK16K33_SEG14_COLON_BYTE]

open HT16K33 HT16K33Segment14 in
/-- C2: in Convention-B mode (`is_ht16k33 = True`) the digit writer first ORs
bit 14 (0x4000) into the value when `has_dot` is set, then stores the low byte
at `buffer[2*digit]` and, at `buffer[2*digit + 1]`, the high byte with bits 3
and 5 exchanged and every other high-byte bit unchanged. -/
theorem claim_C2_conventionB_digit_writer
    (v d : Nat) (dot : Bool) (buf : Buf) (hv : v < 0xFFFF) (hd : d < 4) :
    set_digit true v d dot buf =
      .ok ((buf.set (2 * d + 1) (msbB (if dot then v ||| 0x4000 else v))).set (2 * d)
        ((if dot then v ||| 0x4000 else v) % 256)) ∧
      (msbB (if dot then v ||| 0x4000 else v)).testBit 3 =
        (((if dot then v ||| 0x4000 else v) >>> 8) &&& 0xFF).testBit 5 ∧
      (msbB (if dot then v ||| 0x4000 else v)).testBit 5 =
        (((if dot then v ||| 0x4000 else v) >>> 8) &&& 0xFF).testBit 3 ∧
      (∀ j, j < 8 → j ≠ 3 → j ≠ 5 →
        (msbB (if dot then v ||| 0x4000 else v)).testBit j =
          (((if dot then v ||| 0x4000 else v) >>> 8) &&& 0xFF).testBit j) := by
  refine ⟨?_, msbB_testBit_3 _, msbB_testBit_5 _, fun j hj h3 h5 => msbB_testBit_other _ j hj h3 h5⟩
  simp only [set_digit, HT16K33_SEG14_DP_VALUE, if_true]
  simp [setDigitB, shiftLeft_one_eq, and_255_eq_mod]

open HT16K33 HT16K33Segment14 in
theorem claim_C2_witness :
    (0x1234 < 0xFFFF ∧ 1 < 4) ∧
      set_digit true 0x1234 1 true [0, 0, 0, 0, 0, 0, 0, 0, 0, 0, 0, 0, 0, 0, 0, 0] =
        .ok (([0, 0, 0, 0, 0, 0, 0, 0, 0, 0, 0, 0, 0, 0, 0, (0 : Nat)].set (2 * 1 + 1)
            (msbB (if true then 0x1234 ||| 0x4000 else 0x1234))).set (2 * 1)
          ((if true then 0x1234 ||| 0x4000 else 0x1234) % 256)) :=
  ⟨by decide,
    (claim_C2_conventionB_digit_writer 0x1234 1 true
      [0, 0, 0, 0, 0, 0, 0, 0, 0, 0, 0, 0, 0, 0, 0, 0] (by decide) (by decide)).1⟩

open HT16K33 HT16K33Segment14 in
theorem claim_C8_witness :
    ((0x55 : Nat) < 256) ∧
      ((set_colon false false
          [0, 0x55, 0, 0, 0, 0, 0, 0, 0, 0, 0, 0, 0, 0, 0, 0]).getD 1 0).testBit 0 = false :=
  ⟨by decide,
    (claim_C8_colon_decimal false 0 0x55 0 0 0 0 0 0 0 0 0 0 0 0 0 0 (by decide)).2.2.2.2.1⟩

open HT16K33 HT16K33Segment14 in
theorem claim_C6_witness :
    (0 ≤ (0x8001 : Int) ∧ (0x8001 : Int) < 0xFFFF ∧ (0x8001 : Int).toNat.testBit 15 = true ∧
        0 ≤ (0 : Int) ∧ (0 : Int) < 4) ∧
      errKind (HT16K33Segment14.set_glyph false 0x8001 0 false
          [0, 0, 0, 0, 0, 0, 0, 0, 0, 0, 0, 0, 0, 0, 0, 0]) = some .indexError :=
  ⟨by decide,
    (claim_C6_bit15_out_of_bounds 0 0 0 0 0 0 0 0 0 0 0 0 0 0 0 0 0x8001 0 false
      (by decide) (by decide) (by decide) (by decide) (by decide)).1⟩

namespace HT16K33Segment

theorem testBit_192 (j : Nat) : Nat.testBit 192 j = decide (6 ≤ j ∧ j < 8) := by
  rcases Nat.lt_or_ge j 8 with h | h
  · interval_cases j <;> decide
  · have h2 : (192 : Nat) < 2 ^ j :=
      lt_of_lt_of_le (by norm_num) (Nat.pow_le_pow_right (by norm_num) h)
    rw [Nat.testBit_lt_two_pow h2, eq_comm, decide_eq_false_iff_not]
    omega

theorem testBit_7 (j : Nat) : Nat.testBit 7 j = decide (j < 3) := by
  rcases Nat.lt_or_ge j 3 with h | h
  · interval_cases j <;> decide
  · have h2 : (7 : Nat) < 2 ^ j :=
      lt_of_lt_of_le (by norm_num) (Nat.pow_le_pow_right (by norm_num) h)
    rw [Nat.testBit_lt_two_pow h2, eq_comm, decide_eq_false_iff_not]
    omega

theorem testBit_56 (j : Nat) : Nat.testBit 56 j = decide (3 ≤ j ∧ j < 6) := by
  rcases Nat.lt_or_ge j 6 with h | h
  · interval_cases j <;> decide
  · have h2 : (56 : Nat) < 2 ^ j :=
      lt_of_lt_of_le (by norm_num) (Nat.pow_le_pow_right (by norm_num) h)
    rw [Nat.testBit_lt_two_pow h2, eq_comm, decide_eq_false_iff_not]
    omega

end HT16K33Segment

open HT16K33 HT16K33Segment in
/-- C5: while the 7-segment rotation flag is set, every `draw()` transforms
the stored buffer in place: it swaps the bytes at `POS[0] ↔ POS[3]` and
`POS[1] ↔ POS[2]`, and rewrites each digit byte by `digitRotate`, which
exchanges the bit groups `[0:3)` and `[3:6)` (each shifted by 3) and leaves
bits 6 and 7 unchanged; a second `draw()` while still rotated applies the
same transform again to the already-transformed data. -/
theorem claim_C5_rotated_draw
    (b0 b1 b2 b3 b4 b5 b6 b7 b8 b9 b10 b11 b12 b13 b14 b15 : Nat) :
    (draw true [b0, b1, b2, b3, b4, b5, b6, b7, b8, b9, b10, b11, b12, b13, b14, b15] =
        [digitRotate b8, b1, digitRotate b6, b3, b4, b5, digitRotate b2, b7, digitRotate b0,
          b9, b10, b11, b12, b13, b14, b15]) ∧
      (∀ (a j : Nat),
        (j < 3 → (digitRotate a).testBit j = a.testBit (j + 3)) ∧
        (3 ≤ j → j < 6 → (digitRotate a).testBit j = a.testBit (j - 3)) ∧
        ((digitRotate a).testBit 6 = a.testBit 6) ∧
        ((digitRotate a).testBit 7 = a.testBit 7)) ∧
      (draw true (draw true [b0, b1, b2, b3, b4, b5, b6, b7, b8, b9, b10, b11, b12, b13, b14,
          b15]) =
        [digitRotate (digitRotate b0), b1, digitRotate (digitRotate b2), b3, b4, b5,
          digitRotate (digitRotate b6), b7, digitRotate (digitRotate b8), b9, b10, b11, b12,
          b13, b14, b15]) := by
  refine ⟨?_, fun a j => ⟨fun h3 => ?_, fun h3 h6 => ?_, ?_, ?_⟩, ?_⟩
  · simp [draw, rotatePass, POS]
  · interval_cases j <;> simp [digitRotate, testBit_192, testBit_7, testBit_56]
  · interval_cases j <;> simp [digitRotate, testBit_192, testBit_7, testBit_56]
  · simp [digitRotate, testBit_192, testBit_7, testBit_56]
  · simp [digitRotate, testBit_192, testBit_7, testBit_56]
  · simp [draw, rotatePass, POS]

open HT16K33 HT16K33Segment in
theorem claim_C5_witness :
    ((1 : Nat) < 3) ∧ (digitRotate 0x29).testBit 1 = (0x29 : Nat).testBit (1 + 3) :=
  ⟨by decide,
    ((claim_C5_rotated_draw 0 0 0 0 0 0 0 0 0 0 0 0 0 0 0 0).2.1 0x29 1).1 (by decide)⟩

namespace HT16K33

theorem subOf_singleton (x : Char) (hay : List Char) : subOf [x] hay = hay.contains x := by
  induction hay with
  | nil => rfl
  | cons a as ih => simp [subOf, headMatch, ih, List.contains_cons, Bool.beq_eq_decide_eq]

end HT16K33

open HT16K33 in
/-- C3: every invalid input to a buffer-writing operation of either subclass —
digit outside `[0,4)`, glyph outside its asserted range, number outside
`[0,10)`, code outside `[0,76)`, or a character not in the supported charset —
fails with `AssertionError` raised by the validating assert, and the error
carries the buffer exactly as it was before the call (no partial mutation). -/
theorem claim_C3_invalid_inputs_atomic :
    (∀ (g d : Int) (dot : Bool) (buf : Buf), ¬(0 ≤ d ∧ d < 4) →
      HT16K33Segment.set_glyph g d dot buf = .error (.assertionError, buf)) ∧
      (∀ (g d : Int) (dot : Bool) (buf : Buf), ¬(0 ≤ g ∧ g < 0x80) →
        HT16K33Segment.set_glyph g d dot buf = .error (.assertionError, buf)) ∧
      (∀ (n d : Int) (dot : Bool) (buf : Buf), ¬(0 ≤ d ∧ d < 4) →
        HT16K33Segment.set_number n d dot buf = .error (.assertionError, buf)) ∧
      (∀ (n d : Int) (dot : Bool) (buf : Buf), ¬(0 ≤ n ∧ n < 10) →
        HT16K33Segment.set_number n d dot buf = .error (.assertionError, buf)) ∧
      (∀ (ch : List Char) (d : Int) (dot : Bool) (buf : Buf), ¬(0 ≤ d ∧ d < 4) →
        HT16K33Segment.set_character ch d dot buf = .error (.assertionError, buf)) ∧
      (∀ (c : Char) (d : Int) (dot : Bool) (buf : Buf),
        pyLower c ≠ '-' → pyLower c ≠ ' ' →
        pyLower c ∉ (['a', 'b', 'c', 'd', 'e', 'f'] : List Char) →
        pyLower c ∉ (['0', '1', '2', '3', '4', '5', '6', '7', '8', '9'] : List Char) →
        HT16K33Segment.set_character [c] d dot buf = .error (.assertionError, buf)) ∧
      (∀ (ht : Bool) (g d : Int) (dot : Bool) (buf : Buf), ¬(0 ≤ d ∧ d < 4) →
        HT16K33Segment14.set_glyph ht g d dot buf = .error (.assertionError, buf)) ∧
      (∀ (ht : Bool) (g d : Int) (dot : Bool) (buf : Buf), ¬(0 ≤ g ∧ g < 0xFFFF) →
        HT16K33Segment14.set_glyph ht g d dot buf = .error (.assertionError, buf)) ∧
      (∀ (ht : Bool) (n d : Int) (dot : Bool) (buf : Buf), ¬(0 ≤ d ∧ d < 4) →
        HT16K33Segment14.set_number ht n d dot buf = .error (.assertionError, buf)) ∧
      (∀ (ht : Bool) (n d : Int) (dot : Bool) (buf : Buf), ¬(0 ≤ n ∧ n < 10) →
        HT16K33Segment14.set_number ht n d dot buf = .error (.assertionError, buf)) ∧
      (∀ (ht : Bool) (cd d : Int) (dot : Bool) (buf : Buf), ¬(0 ≤ d ∧ d < 4) →
        HT16K33Segment14.set_code ht cd d dot buf = .error (.assertionError, buf)) ∧
      (∀ (ht : Bool) (cd d : Int) (dot : Bool) (buf : Buf), ¬(0 ≤ cd ∧ cd < 76) →
        HT16K33Segment14.set_code ht cd d dot buf = .error (.assertionError, buf)) ∧
      (∀ (ht : Bool) (ch : List Char) (d : Int) (dot : Bool) (buf : Buf), ¬(0 ≤ d ∧ d < 4) →
        HT16K33Segment14.set_character ht ch d dot buf = .error (.assertionError, buf)) ∧
      (∀ (ht : Bool) (c : Char) (d : Int) (dot : Bool) (buf : Buf),
        c ≠ '-' → c ≠ '*' → c ≠ '+' → c ≠ ' ' → c ≠ '/' → c ≠ '$' → c ≠ ':' →
        c ∉ (['0', '1', '2', '3', '4', '5', '6', '7', '8', '9'] : List Char) →
        c ∉ (['A', 'B', 'C', 'D', 'E', 'F', 'G', 'H', 'I', 'J', 'K', 'L', 'M', 'N', 'O', 'P',
          'Q', 'R', 'S', 'T', 'U', 'V', 'W', 'X', 'Y', 'Z'] : List Char) →
        c ∉ (['a', 'b', 'c', 'd', 'e', 'f', 'g', 'h', 'i', 'j', 'k', 'l', 'm', 'n', 'o', 'p',
          'q', 'r', 's', 't', 'u', 'v', 'w', 'x', 'y', 'z'] : List Char) →
        HT16K33Segment14.set_character ht [c] d dot buf = .error (.assertionError, buf)) := by
  refine ⟨fun g d dot buf h => ?_, fun g d dot buf h => ?_, fun n d dot buf h => ?_,
    fun n d dot buf h => ?_, fun ch d dot buf h => ?_,
    fun c d dot buf h1 h2 ha hdg => ?_,
    fun ht g d dot buf h => ?_, fun ht g d dot buf h => ?_, fun ht n d dot buf h => ?_,
    fun ht n d dot buf h => ?_, fun ht cd d dot buf h => ?_, fun ht cd d dot buf h => ?_,
    fun ht ch d dot buf h => ?_,
    fun ht c d dot buf e1 e2 e3 e4 e5 e6 e7 m1 m2 m3 => ?_⟩
  · simp [HT16K33Segment.set_glyph, h]
  · by_cases h4 : 0 ≤ d ∧ d < 4 <;> simp [HT16K33Segment.set_glyph, h4, h]
  · simp [HT16K33Segment.set_number, h]
  · by_cases h4 : 0 ≤ d ∧ d < 4 <;> simp [HT16K33Segment.set_number, h4, h]
  · simp [HT16K33Segment.set_character, h]
  · by_cases h4 : 0 ≤ d ∧ d < 4 <;>
      simp [HT16K33Segment.set_character, h4, h1, h2, ha, hdg, subOf_singleton, pyOrd]
  · simp [HT16K33Segment14.set_glyph, h]
  · by_cases h4 : 0 ≤ d ∧ d < 4 <;> simp [HT16K33Segment14.set_glyph, h4, h]
  · simp [HT16K33Segment14.set_number, h]
  · by_cases h4 : 0 ≤ d ∧ d < 4 <;> simp [HT16K33Segment14.set_number, h4, h]
  · simp [HT16K33Segment14.set_code, h]
  · by_cases h4 : 0 ≤ d ∧ d < 4 <;>
      simp [HT16K33Segment14.set_code, HT16K33Segment14.HT16K33_SEG14_CHAR_COUNT, h4, h]
  · simp [HT16K33Segment14.set_character, h]
  · by_cases h4 : 0 ≤ d ∧ d < 4 <;>
      simp [HT16K33Segment14.set_character, h4, e1, e2, e3, e4, e5, e6, e7, m1, m2, m3,
        subOf_singleton, pyOrd]

open HT16K33 in
theorem claim_C3_witness :
    (¬(0 ≤ (9 : Int) ∧ (9 : Int) < 4)) ∧
      HT16K33Segment.set_glyph 5 9 false [1, 2] = .error (.assertionError, [1, 2]) ∧
      (pyLower '!' ≠ '-') ∧
      HT16K33Segment.set_character ['!'] 0 false [] = .error (.assertionError, []) :=
  ⟨by decide,
    claim_C3_invalid_inputs_atomic.1 5 9 false [1, 2] (by decide),
    by decide,
    claim_C3_invalid_inputs_atomic.2.2.2.2.2.1 '!' 0 false []
      (by decide) (by decide) (by decide) (by decide)⟩

namespace HT16K33Segment

open HT16K33

theorem pos_lt (i : Nat) : (POS[i]?).getD 0 < 16 := by
  rcases i with _ | _ | _ | _ | i <;> simp [POS]

end HT16K33Segment

open HT16K33 HT16K33Segment in
/-- C4: the 7-segment `set_character` lowercases its input and maps `"deg"` to
charset index 0x11, `'-'` to 0x10, `' '` to 0x12, `'a'`-`'f'` to 10-15 and
`'0'`-`'9'` to 0-9, failing (invalid-character) for any other character; on
success `buffer[POS[digit]]` becomes `CHARSET[index]`, OR-ed with 0x80 when
`has_dot` is true.  In particular `set_character('5', 0)` makes
`buffer[POS[0]]` equal `CHARSET[5] = 0x6D`, and `0xED` with `has_dot`. -/
theorem claim_C4_seg7_set_character
    (buf : Buf) (hlen : buf.length = 16) (d : Int) (dot : Bool) (hd0 : 0 ≤ d) (hd4 : d < 4) :
    (∀ cs : List Char, cs.map pyLower = ['d', 'e', 'g'] →
      set_character cs d dot buf =
        .ok (buf.set (POS.getD d.toNat 0)
          (CHARSET.getD 0x11 0 ||| (if dot then 0x80 else 0)))) ∧
      (∀ c : Char, pyLower c = '-' →
        set_character [c] d dot buf =
          .ok (buf.set (POS.getD d.toNat 0)
            (CHARSET.getD 0x10 0 ||| (if dot then 0x80 else 0)))) ∧
      (∀ c : Char, pyLower c = ' ' →
        set_character [c] d dot buf =
          .ok (buf.set (POS.getD d.toNat 0)
            (CHARSET.getD 0x12 0 ||| (if dot then 0x80 else 0)))) ∧
      (∀ c : Char, pyLower c ∈ (['a', 'b', 'c', 'd', 'e', 'f'] : List Char) →
        set_character [c] d dot buf =
          .ok (buf.set (POS.getD d.toNat 0)
            (CHARSET.getD ((pyLower c).toNat - 87) 0 ||| (if dot then 0x80 else 0)))) ∧
      (∀ c : Char, pyLower c ∈ (['0', '1', '2', '3', '4', '5', '6', '7', '8', '9'] : List Char) →
        set_character [c] d dot buf =
          .ok (buf.set (POS.getD d.toNat 0)
            (CHARSET.getD ((pyLower c).toNat - 48) 0 ||| (if dot then 0x80 else 0)))) ∧
      (∀ c : Char, pyLower c ≠ '-' → pyLower c ≠ ' ' →
        pyLower c ∉ (['a', 'b', 'c', 'd', 'e', 'f'] : List Char) →
        pyLower c ∉ (['0', '1', '2', '3', '4', '5', '6', '7', '8', '9'] : List Char) →
        set_character [c] d dot buf = .error (.assertionError, buf)) ∧
      (set_character ['5'] 0 false buf = .ok (buf.set 0 0x6D)) ∧
      (set_character ['5'] 0 true buf = .ok (buf.set 0 0xED)) := by
  have h4 : 0 ≤ d ∧ d < 4 := ⟨hd0, hd4⟩
  refine ⟨fun cs hcs => ?_, fun c hc => ?_, fun c hc => ?_, fun c hc => ?_, fun c hc => ?_,
    fun c h1 h2 ha hdg => ?_, ?_, ?_⟩
  · rcases dot <;>
      simp [set_character, hcs, h4, HT16K33_SEGMENT_DEGREE_CHAR, hlen, pos_lt, List.set_set]
  · rcases dot <;>
      simp [set_character, hc, h4, HT16K33_SEGMENT_MINUS_CHAR, HT16K33_SEGMENT_DEGREE_CHAR,
        HT16K33_SEGMENT_SPACE_CHAR, hlen, pos_lt, List.set_set]
  · rcases dot <;>
      simp [set_character, hc, h4, HT16K33_SEGMENT_MINUS_CHAR, HT16K33_SEGMENT_DEGREE_CHAR,
        HT16K33_SEGMENT_SPACE_CHAR, hlen, pos_lt, List.set_set]
  · simp only [List.mem_cons, List.not_mem_nil, or_false] at hc
    rcases hc with hc | hc | hc | hc | hc | hc <;> rcases dot <;>
      simp [set_character, hc, h4, subOf, headMatch, pyOrd, Except.map,
        HT16K33_SEGMENT_DEGREE_CHAR, HT16K33_SEGMENT_MINUS_CHAR, HT16K33_SEGMENT_SPACE_CHAR,
        hlen, pos_lt, List.set_set]
  · simp only [List.mem_cons, List.not_mem_nil, or_false] at hc
    rcases hc with hc | hc | hc | hc | hc | hc | hc | hc | hc | hc <;> rcases dot <;>
      simp [set_character, hc, h4, subOf, headMatch, pyOrd, Except.map,
        HT16K33_SEGMENT_DEGREE_CHAR, HT16K33_SEGMENT_MINUS_CHAR, HT16K33_SEGMENT_SPACE_CHAR,
        hlen, pos_lt, List.set_set]
  · simp [set_character, h4, h1, h2, ha, hdg, subOf_singleton, pyOrd,
      HT16K33_SEGMENT_DEGREE_CHAR, HT16K33_SEGMENT_MINUS_CHAR, HT16K33_SEGMENT_SPACE_CHAR]
  · simp [set_character, subOf, headMatch, pyOrd, Except.map, POS, CHARSET,
      HT16K33_SEGMENT_DEGREE_CHAR, HT16K33_SEGMENT_MINUS_CHAR, HT16K33_SEGMENT_SPACE_CHAR,
      show pyLower ('5' : Char) = '5' from rfl, hlen, List.set_set]
  · simp [set_character, subOf, headMatch, pyOrd, Except.map, POS, CHARSET,
      HT16K33_SEGMENT_DEGREE_CHAR, HT16K33_SEGMENT_MINUS_CHAR, HT16K33_SEGMENT_SPACE_CHAR,
      show pyLower ('5' : Char) = '5' from rfl, hlen, List.set_set]

open HT16K33 HT16K33Segment in
theorem claim_C4_witness :
    (List.length [0, 0, 0, 0, 0, 0, 0, 0, 0, 0, 0, 0, 0, 0, 0, (0 : Nat)] = 16 ∧
        (0 : Int) ≤ 0 ∧ (0 : Int) < 4) ∧
      set_character ['5'] 0 false [0, 0, 0, 0, 0, 0, 0, 0, 0, 0, 0, 0, 0, 0, 0, 0] =
        .ok ([0, 0, 0, 0, 0, 0, 0, 0, 0, 0, 0, 0, 0, 0, 0, (0 : Nat)].set 0 0x6D) :=
  ⟨by decide,
    (claim_C4_seg7_set_character [0, 0, 0, 0, 0, 0, 0, 0, 0, 0, 0, 0, 0, 0, 0, 0]
      (by decide) 0 false (by decide) (by decide)).2.2.2.2.2.2.1⟩
